import Mathlib

/-!
Shallow embedding of the document question-answering application
(`app.py`): presentation extraction (`processar_pptx`), the format
dispatcher (`processar_documentos`), the credential-configuration gate
(`modal_api_key` / `configurar_sistema`), the index builder
(`criar_indice`) and the session-state transitions of `main`
(upload, reload, question handling).
-/

namespace PGTO

/-- Metadata attached to an extracted document (`Document(metadata=...)`
in the source): file name, file-type tag, source tag, and for
presentations the slide count. -/
structure DocMeta where
  file_name : String
  file_type : String
  source : String
  total_slides : Option Nat
  deriving DecidableEq

/-- A unit of retrievable content: raw text plus metadata
(the `Document` objects built during extraction). -/
structure Document where
  text : String
  metadata : DocMeta
  deriving DecidableEq

/-- A shape on a slide: its text attribute when it carries one
(`hasattr(shape, "text")`), and its table's rows of cell texts when
`shape.has_table` holds. -/
structure Shape where
  text : Option String
  table : Option (List (List String))
  deriving DecidableEq

/-- A slide: the list of its shapes, in order. -/
structure Slide where
  shapes : List Shape
  deriving DecidableEq

/-- A parsed presentation: its slides in order (`prs.slides`). -/
structure Presentation where
  slides : List Slide
  deriving DecidableEq

/-- Drop the leading whitespace characters of a character list. -/
def dropLeadingWs : List Char → List Char
  | [] => []
  | c :: cs => if c.isWhitespace then dropLeadingWs cs else c :: cs

/-- The Python `str.strip()` method: remove leading and trailing
whitespace. -/
def pyStrip (s : String) : String :=
  String.mk ((dropLeadingWs (dropLeadingWs s.toList).reverse).reverse)

/-- The Python `str.lower()` method on ASCII identifiers and
extensions. -/
def pyLower (s : String) : String :=
  String.mk (s.toList.map Char.toLower)

/-- The Python `str.startswith(p)` method. -/
def pyStartswith (s p : String) : Bool :=
  s.toList.take p.toList.length == p.toList

/-- The Python slice `s[1:]`. -/
def sliceFrom1 (s : String) : String :=
  String.mk (s.toList.drop 1)

/-- `" | ".join([cell.text.strip() for cell in row.cells])` from
`processar_pptx`. -/
def rowText (cells : List String) : String :=
  String.intercalate " | " (cells.map pyStrip)

/-- The line a table row contributes to the slide text:
`if row_text.strip(): slide_content += f"Tabela: \x7brow_text\x7d\n"`. -/
def rowLine (cells : List String) : String :=
  let row_text := rowText cells
  if pyStrip row_text = "" then "" else "Tabela: " ++ row_text ++ "\n"

/-- The text one shape contributes to its slide's section: the shape's
own text (when non-blank) followed by one `rowLine` per table row. -/
def shapeContent (sh : Shape) : String :=
  (match sh.text with
   | some t => if pyStrip t = "" then "" else t ++ "\n"
   | none => "") ++
  (match sh.table with
   | some rows => String.join (rows.map rowLine)
   | none => "")

/-- The body of a slide section: the concatenation of its shapes'
contributions. -/
def slideBody (s : Slide) : String :=
  String.join (s.shapes.map shapeContent)

/-- One slide's section: `f"\n=== SLIDE \x7bi\x7d ===\n"` followed by the
shape contributions accumulated into `slide_content`. -/
def slideContent (i : Nat) (s : Slide) : String :=
  "\n=== SLIDE " ++ toString i ++ " ===\n" ++ slideBody s

/-- The `slides_texto` list: one section per slide, numbering the slides
from `i` upward (`enumerate(prs.slides, 1)` uses `i = 1`). -/
def slideSectionsAux (i : Nat) : List Slide → List String
  | [] => []
  | s :: rest => slideContent i s :: slideSectionsAux (i + 1) rest

/-- The `slides_texto` list of `processar_pptx`, numbered from 1. -/
def slideSections (prs : Presentation) : List String :=
  slideSectionsAux 1 prs.slides

/-- `processar_pptx` on a presentation that parsed successfully: joins
the slide sections with `"\n"`, builds one `Document` with the fixed
metadata, and returns it together with the slide count. -/
def processar_pptx (fileName : String) (prs : Presentation) : Document × Nat :=
  let texto_completo := String.intercalate "\n" (slideSections prs)
  (⟨texto_completo,
    ⟨fileName, "pptx", "presentation", some prs.slides.length⟩⟩,
   prs.slides.length)

deriving instance DecidableEq for Except

/-- A file in the extracted directory: its name, plus the outcome the
external world produces when the file is opened as a presentation
(`Presentation(path)`) or fed to the generic loader
(`SimpleDirectoryReader(...).load_data()`). An `Except.error` models a
raised exception. -/
structure FileEntry where
  name : String
  pptxParse : Except String Presentation
  genericLoad : Except String (List Document)
  deriving DecidableEq

/-- `Path(arquivo).suffix`: the substring from the last dot of the name,
empty when the dot is absent, leading, or final. -/
def pathSuffix (name : String) : String :=
  let cs := name.toList
  match cs.reverse.findIdx? (· = '.') with
  | some j =>
    let i := cs.length - 1 - j
    if 0 < i ∧ i < cs.length - 1 then String.mk (cs.drop i) else ""
  | none => ""

/-- `formatos_suportados = ['.pdf', '.docx', '.pptx', '.txt', '.md']`. -/
def formatos_suportados : List String :=
  [".pdf", ".docx", ".pptx", ".txt", ".md"]

/-- The lower-cased extension the dispatcher computes for a file:
`Path(arquivo).suffix.lower()`. -/
def fileExt (name : String) : String :=
  pyLower (pathSuffix name)

/-- The dispatcher's filter: `extensao in formatos_suportados`. -/
def recognized (name : String) : Bool :=
  formatos_suportados.contains (fileExt name)

/-- A user-visible per-file report: `st.warning(...)` when `isWarning`,
`st.error(...)` otherwise, naming the file it concerns. -/
structure Report where
  isWarning : Bool
  fileName : String
  deriving DecidableEq

/-- The generic extractor's post-processing: `doc.metadata.update(...)`
with the file name, the extension without its dot (`extensao[1:]`) and
the source tag `"document"`. -/
def updateMeta (arquivo : String) (extensao : String) (d : Document) : Document :=
  { d with metadata :=
      { d.metadata with
          file_name := arquivo
          file_type := sliceFrom1 extensao
          source := "document" } }

/-- The dispatcher's per-file body (the `try` block of the loop in
`processar_documentos`): route by extension, collect produced documents
and reports. A failed presentation parse is reported by `st.error`
inside `processar_pptx` and yields no document; a generic-loader
exception is caught by the dispatcher and reported by `st.warning`. -/
def processFile (f : FileEntry) : List Document × List Report :=
  let extensao := fileExt f.name
  if extensao = ".pptx" then
    match f.pptxParse with
    | Except.ok prs => ([(processar_pptx f.name prs).1], [])
    | Except.error _ => ([], [⟨false, f.name⟩])
  else if extensao ∈ [".docx", ".pdf", ".txt", ".md"] then
    match f.genericLoad with
    | Except.ok docs => (docs.map (updateMeta f.name extensao), [])
    | Except.error _ => ([], [⟨true, f.name⟩])
  else ([], [])

/-- The dispatcher's loop over the recognized files, accumulating
documents and reports in order. -/
def dispatchLoop : List FileEntry → List Document × List Report
  | [] => ([], [])
  | f :: rest =>
    ((processFile f).1 ++ (dispatchLoop rest).1,
     (processFile f).2 ++ (dispatchLoop rest).2)

/-- Result of `processar_documentos`: the aggregated documents, the
count of files attempted (`len(arquivos)`), and the per-file reports
emitted along the way. -/
structure DispatchResult where
  docs : List Document
  numArquivos : Nat
  reports : List Report
  deriving DecidableEq

/-- `processar_documentos`: filter the directory entries by recognized
extension; with no match return `([], 0)`; otherwise process each
recognized file in order and return the documents with the attempted
count. -/
def processar_documentos (entries : List FileEntry) : DispatchResult :=
  if (entries.filter fun f => recognized f.name).isEmpty then ⟨[], 0, []⟩
  else
    ⟨(dispatchLoop (entries.filter fun f => recognized f.name)).1,
     (entries.filter fun f => recognized f.name).length,
     (dispatchLoop (entries.filter fun f => recognized f.name)).2⟩

/-- The `SentenceSplitter` configuration built by `criar_indice`. -/
structure SentenceSplitter where
  chunk_size : Nat
  chunk_overlap : Nat
  paragraph_separator : String
  deriving DecidableEq

/-- The query engine returned by `index.as_query_engine(...)`: the
splitter and documents the index was built from, plus the fixed
retrieval and generation parameters. -/
structure QueryEngine where
  splitter : SentenceSplitter
  documentos : List Document
  similarity_top_k : Nat
  response_mode : String
  verbose : Bool
  streaming : Bool
  max_tokens : Nat
  temperature : ℚ
  deriving DecidableEq

/-- `criar_indice`: build the splitter with its fixed parameters, then
the index and the query engine; `indexOk` models whether the external
index construction raises (caught, reported, `None` returned). -/
def criar_indice (documentos : List Document) (indexOk : Bool) : Option QueryEngine :=
  let node_splitter : SentenceSplitter := ⟨3000, 600, "\n\n"⟩
  if indexOk then
    some ⟨node_splitter, documentos, 40, "tree_summarize", true, false, 12000, 1/2⟩
  else none

/-- The whole mutable state the app touches: the session-state keys of
`main` and `modal_api_key`, plus the process-wide credential
(`os.environ["OPENAI_API_KEY"]`). -/
structure AppState where
  api_key_configured : Bool
  env_openai_key : Option String
  documentos_processados : Bool
  query_engine : Option QueryEngine
  num_documentos : Nat
  chat_history : List (String × String)
  deriving DecidableEq

/-- The freshly initialized state: flags false, no credential, no
engine, empty transcript. -/
def initState : AppState :=
  ⟨false, none, false, none, 0, []⟩

/-- The configure-button handler of `modal_api_key`: on
`api_key and api_key.startswith("sk-")` store the key in the process
environment and run `configurar_sistema` (its success is the external
outcome `configOk`); flip the configured flag only on success. The
second component is the error message shown, when any. -/
def configButtonClick (api_key : String) (configOk : Bool) (s : AppState) :
    AppState × Option String :=
  if api_key ≠ "" ∧ pyStartswith api_key "sk-" = true then
    let s1 := { s with env_openai_key := some api_key }
    if configOk then
      ({ s1 with api_key_configured := true }, none)
    else
      (s1, some "Erro na configuracao. Verifique sua API Key.")
  else
    (s, some "Por favor, insira uma API Key valida (deve comecar com sk-)")

/-- The upload branch of `main`: process the extracted entries; when
documents were produced and the index builds, set the processed flag,
the engine and the document count; otherwise report and leave the
session state unchanged. -/
def uploadStep (entries : List FileEntry) (indexOk : Bool) (s : AppState) : AppState :=
  let r := processar_documentos entries
  if r.docs.isEmpty then s
  else
    match criar_indice r.docs indexOk with
    | some qe =>
      { s with
          documentos_processados := true
          query_engine := some qe
          num_documentos := r.docs.length }
    | none => s

/-- The reload button of `main`: reset the processed flag, the engine
reference and the document count; nothing else is touched. -/
def reloadClick (s : AppState) : AppState :=
  { s with
      documentos_processados := false
      query_engine := none
      num_documentos := 0 }

/-- The question handler of `main`: on `enviar and pergunta.strip()`
run the query; on success append the pair to the transcript, on failure
report the error and leave the transcript alone. The second component
is the error message shown, when any. -/
def processarPergunta (enviar : Bool) (pergunta : String)
    (query : String → Except String String)
    (history : List (String × String)) :
    List (String × String) × Option String :=
  if enviar = true ∧ pyStrip pergunta ≠ "" then
    match query pergunta with
    | Except.ok resp => (history ++ [(pergunta, resp)], none)
    | Except.error e => (history, some e)
  else (history, none)

/-- The transcript as rendered by `main`: most-recent-first
(`reversed(st.session_state.chat_history)`). -/
def renderedChats (history : List (String × String)) : List (String × String) :=
  history.reverse

/-- The successful-extraction hypothesis for a recognized file: either
a presentation that parses, or a generic file whose loader returns at
least one document. -/
def extractionOk (f : FileEntry) : Prop :=
  (fileExt f.name = ".pptx" ∧ ∃ prs, f.pptxParse = Except.ok prs) ∨
  (fileExt f.name ∈ [".docx", ".pdf", ".txt", ".md"] ∧
    ∃ ds, f.genericLoad = Except.ok ds ∧ ds ≠ [])

/-- The failing-extraction hypothesis for a recognized file: its
extractor raises. -/
def extractionFails (f : FileEntry) : Prop :=
  (fileExt f.name = ".pptx" ∧ ∃ e, f.pptxParse = Except.error e) ∨
  (fileExt f.name ∈ [".docx", ".pdf", ".txt", ".md"] ∧
    ∃ e, f.genericLoad = Except.error e)

/-- A concrete two-slide presentation used by witnesses. -/
def demoPrs : Presentation :=
  ⟨[⟨[⟨some "Titulo", none⟩]⟩,
    ⟨[⟨some "Resumo", some [["Total", "10"], ["", ""]]⟩]⟩]⟩

/-- A concrete presentation file whose parse succeeds. -/
def goodPptx : FileEntry :=
  ⟨"deck.pptx", Except.ok demoPrs, Except.ok []⟩

/-- A concrete presentation file whose parse raises. -/
def badPptx : FileEntry :=
  ⟨"bad.pptx", Except.error "parse failure", Except.ok []⟩

/-- A concrete generic document as the loader returns it. -/
def loadedDoc : Document :=
  ⟨"conteudo do arquivo", ⟨"", "", "", none⟩⟩

/-- A concrete text file whose load succeeds with one document. -/
def goodTxt : FileEntry :=
  ⟨"notas.txt", Except.error "not a pptx", Except.ok [loadedDoc]⟩

/-- A concrete markdown file whose load raises. -/
def badMd : FileEntry :=
  ⟨"guia.md", Except.error "not a pptx", Except.error "read failure"⟩

/-- A concrete file with an unrecognized extension. -/
def strayCsv : FileEntry :=
  ⟨"dados.csv", Except.error "not a pptx", Except.ok [loadedDoc]⟩

/-- A concrete query backend that answers every question. -/
def demoQuery : String → Except String String :=
  fun _ => Except.ok "resposta"

/-- A concrete mid-session state with a nonempty transcript. -/
def chatState : AppState :=
  ⟨true, some "sk-mykey", true, none, 1, [("pergunta antiga", "resposta antiga")]⟩

/- Helper lemmas. -/

theorem append_ne_empty (s t : String) (hs : 0 < s.length) : s ++ t ≠ "" := by
  intro heq
  have h2 := congrArg String.length heq
  rw [String.length_append] at h2
  have h3 : ("" : String).length = 0 := rfl
  omega

theorem slideSectionsAux_length (i : Nat) (ss : List Slide) :
    (slideSectionsAux i ss).length = ss.length := by
  induction ss generalizing i with
  | nil => rfl
  | cons s rest ih => simp [slideSectionsAux, ih]

theorem slideSectionsAux_get (ss : List Slide) (i k : Nat)
    (hk : k < (slideSectionsAux i ss).length) :
    ∃ rest, (slideSectionsAux i ss).get ⟨k, hk⟩ =
      "\n=== SLIDE " ++ toString (i + k) ++ " ===\n" ++ rest := by
  induction ss generalizing i k with
  | nil => simp [slideSectionsAux] at hk
  | cons s rest ih =>
    cases k with
    | zero => exact ⟨slideBody s, rfl⟩
    | succ k =>
      have h2 : k < (slideSectionsAux (i + 1) rest).length := by
        simpa [slideSectionsAux, Nat.succ_lt_succ_iff] using hk
      obtain ⟨r, hr⟩ := ih (i + 1) k h2
      refine ⟨r, ?_⟩
      have harith : i + 1 + k = i + (k + 1) := by omega
      rw [harith] at hr
      exact hr

theorem dispatchLoop_append (a b : List FileEntry) :
    dispatchLoop (a ++ b) =
      ((dispatchLoop a).1 ++ (dispatchLoop b).1,
       (dispatchLoop a).2 ++ (dispatchLoop b).2) := by
  induction a with
  | nil => simp [dispatchLoop]
  | cons f rest ih => simp [dispatchLoop, ih]

theorem mem_dispatchLoop_docs {l : List FileEntry} {f : FileEntry} (hf : f ∈ l)
    {d : Document} (hd : d ∈ (processFile f).1) : d ∈ (dispatchLoop l).1 := by
  induction l with
  | nil => cases hf
  | cons g rest ih =>
    rcases List.mem_cons.mp hf with h | h
    · subst h
      exact List.mem_append.mpr (Or.inl hd)
    · exact List.mem_append.mpr (Or.inr (ih h))

theorem processar_documentos_eq_of_mem {entries : List FileEntry} {f : FileEntry}
    (hf : f ∈ entries.filter fun g => recognized g.name) :
    processar_documentos entries =
      ⟨(dispatchLoop (entries.filter fun g => recognized g.name)).1,
       (entries.filter fun g => recognized g.name).length,
       (dispatchLoop (entries.filter fun g => recognized g.name)).2⟩ := by
  unfold processar_documentos
  rw [if_neg]
  intro h
  rw [List.isEmpty_iff] at h
  rw [h] at hf
  cases hf

theorem uploadStep_chat (entries : List FileEntry) (indexOk : Bool) (s : AppState) :
    (uploadStep entries indexOk s).chat_history = s.chat_history := by
  unfold uploadStep criar_indice
  cases indexOk <;>
    by_cases h : (processar_documentos entries).docs.isEmpty <;> simp [h]

/-- C1, counterexample: the table row whose two cells are both empty
after trimming is nevertheless emitted, because the joined text is the
bare separator, which is non-empty after trimming; moreover the emitted
line carries the prefix `Tabela: ` rather than being only the joined
cell values. -/
theorem c1_counterexample :
    (∀ c ∈ ([""] ++ [""] : List String), pyStrip c = "") ∧
    rowLine ["", ""] = "Tabela:  | " ++ "\n" ∧
    rowLine ["", ""] ≠ "" := by decide

/-- C1, amended: a table row is omitted from the slide text exactly when
the `" | "`-join of its trimmed cell values is empty after trimming
(hence a multi-cell row is always emitted, the separator surviving the
trim), and an emitted row appears as the line `Tabela: ` followed by the
trimmed cell values joined by `" | "`. -/
theorem c1_row_emission (cells : List String) :
    (rowLine cells = "" ↔ pyStrip (rowText cells) = "") ∧
    (pyStrip (rowText cells) ≠ "" →
      rowLine cells = "Tabela: " ++ rowText cells ++ "\n") := by
  constructor
  · constructor
    · intro h
      by_contra hne
      rw [rowLine] at h
      simp only [if_neg hne] at h
      exact append_ne_empty "Tabela: " (rowText cells ++ "\n") (by decide) h
    · intro h
      rw [rowLine]
      simp [h]
  · intro h
    rw [rowLine]
    simp [h]

/-- C1, witness of the amended theorem at a concrete emitted row. -/
theorem c1_row_emission_witness :
    pyStrip (rowText ["Total", "10"]) ≠ "" ∧
    rowLine ["Total", "10"] = "Tabela: " ++ rowText ["Total", "10"] ++ "\n" :=
  ⟨by decide, (c1_row_emission ["Total", "10"]).2 (by decide)⟩

/-- C2: on a presentation that parses, `processar_pptx` returns exactly
one Document together with the slide count; the metadata records the
file name, the literal tag `pptx`, the slide count and the source tag
`presentation`; and the text is the join of one section per slide, the
section of slide `k` opening with the header `=== SLIDE k ===` numbered
in ascending order from 1. -/
theorem c2_pptx_document (fname : String) (prs : Presentation) :
    (processar_pptx fname prs).2 = prs.slides.length ∧
    (processar_pptx fname prs).1.metadata =
      ⟨fname, "pptx", "presentation", some prs.slides.length⟩ ∧
    (slideSections prs).length = prs.slides.length ∧
    (processar_pptx fname prs).1.text =
      String.intercalate "\n" (slideSections prs) ∧
    (∀ k (hk : k < (slideSections prs).length),
      ∃ rest, (slideSections prs).get ⟨k, hk⟩ =
        "\n=== SLIDE " ++ toString (k + 1) ++ " ===\n" ++ rest) := by
  refine ⟨rfl, rfl, slideSectionsAux_length 1 prs.slides, rfl, ?_⟩
  intro k hk
  have h := slideSectionsAux_get prs.slides 1 k hk
  rwa [Nat.add_comm 1 k] at h

/-- C2, witness: the second slide of the concrete presentation carries
the header `=== SLIDE 2 ===`. -/
theorem c2_pptx_document_witness :
    1 < (slideSections demoPrs).length ∧
    ∃ rest, (slideSections demoPrs).get ⟨1, by decide⟩ =
      "\n=== SLIDE " ++ toString (1 + 1) ++ " ===\n" ++ rest :=
  ⟨by decide,
   (c2_pptx_document "deck.pptx" demoPrs).2.2.2.2 1 (by decide)⟩

/-- C3: starting from an unconfigured session, a credential is accepted
exactly when it is non-empty and starts with `sk-`; a rejected input
leaves the state unchanged (still unconfigured) with a validation
message, while an accepted input is stored in the process environment
and, when the backend configuration succeeds, flips the configured flag
with no error message. -/
theorem c3_credential_acceptance (k : String) (configOk : Bool) (s : AppState)
    (hs : s.api_key_configured = false) :
    (¬(k ≠ "" ∧ pyStartswith k "sk-" = true) →
      configButtonClick k configOk s =
        (s, some "Por favor, insira uma API Key valida (deve comecar com sk-)") ∧
      (configButtonClick k configOk s).1.api_key_configured = false) ∧
    ((k ≠ "" ∧ pyStartswith k "sk-" = true) →
      (configButtonClick k configOk s).1.env_openai_key = some k ∧
      (configOk = true →
        (configButtonClick k configOk s).1.api_key_configured = true ∧
        (configButtonClick k configOk s).2 = none)) := by
  constructor
  · intro h
    rw [configButtonClick, if_neg h]
    exact ⟨rfl, hs⟩
  · intro h
    rw [configButtonClick, if_pos h]
    cases configOk <;> simp

/-- C3, witness: the concrete key with the prefix is accepted, stored
and configures the session; the concrete key without it is rejected. -/
theorem c3_credential_acceptance_witness :
    initState.api_key_configured = false ∧
    ("sk-validlookingkey" ≠ "" ∧ pyStartswith "sk-validlookingkey" "sk-" = true) ∧
    (configButtonClick "sk-validlookingkey" true initState).1.env_openai_key =
      some "sk-validlookingkey" ∧
    (configButtonClick "sk-validlookingkey" true initState).1.api_key_configured =
      true ∧
    ¬("abc123" ≠ "" ∧ pyStartswith "abc123" "sk-" = true) ∧
    (configButtonClick "abc123" true initState).1.api_key_configured = false :=
  ⟨rfl, by decide,
   ((c3_credential_acceptance "sk-validlookingkey" true initState rfl).2
      (by decide)).1,
   (((c3_credential_acceptance "sk-validlookingkey" true initState rfl).2
      (by decide)).2 rfl).1,
   by decide,
   ((c3_credential_acceptance "abc123" true initState rfl).1 (by decide)).2⟩

/-- C4, counterexample: with the concrete key `sk-key123` and a failing
backend configuration, the attempt fails (an error is shown and the
configured flag stays false), yet the process state after the attempt
differs from the state before it: the credential has already been
written to the process environment, refuting the atomicity part of the
claim. -/
theorem c4_counterexample :
    ("sk-key123" ≠ "" ∧ pyStartswith "sk-key123" "sk-" = true) ∧
    (configButtonClick "sk-key123" false initState).2.isSome = true ∧
    (configButtonClick "sk-key123" false initState).1.api_key_configured = false ∧
    (configButtonClick "sk-key123" false initState).1 ≠ initState ∧
    (configButtonClick "sk-key123" false initState).1.env_openai_key ≠
      initState.env_openai_key := by decide

/-- C4, amended: a failed attempt always reports an error and leaves the
configured flag (and the whole session state other than the stored
credential) unchanged; for empty or wrong-prefix input the state is
entirely untouched, but on a backend-configuration error the credential
has already been stored in the process environment. -/
theorem c4_failed_attempt (k : String) (configOk : Bool) (s : AppState) :
    (¬(k ≠ "" ∧ pyStartswith k "sk-" = true) →
      (configButtonClick k configOk s).1 = s ∧
      (configButtonClick k configOk s).2.isSome = true) ∧
    ((k ≠ "" ∧ pyStartswith k "sk-" = true) → configOk = false →
      (configButtonClick k configOk s).1.api_key_configured =
        s.api_key_configured ∧
      (configButtonClick k configOk s).2.isSome = true ∧
      (configButtonClick k configOk s).1.env_openai_key = some k ∧
      (configButtonClick k configOk s).1.documentos_processados =
        s.documentos_processados ∧
      (configButtonClick k configOk s).1.query_engine = s.query_engine ∧
      (configButtonClick k configOk s).1.num_documentos = s.num_documentos ∧
      (configButtonClick k configOk s).1.chat_history = s.chat_history) := by
  constructor
  · intro h
    rw [configButtonClick, if_neg h]
    exact ⟨rfl, rfl⟩
  · intro h hok
    subst hok
    rw [configButtonClick, if_pos h]
    simp

/-- C4, witness of the amended theorem: the empty input leaves the state
untouched, and the failing-backend attempt keeps the flag down while the
credential is stored. -/
theorem c4_failed_attempt_witness :
    ¬("" ≠ "" ∧ pyStartswith "" "sk-" = true) ∧
    (configButtonClick "" true initState).1 = initState ∧
    ("sk-key999" ≠ "" ∧ pyStartswith "sk-key999" "sk-" = true) ∧
    (configButtonClick "sk-key999" false initState).1.env_openai_key =
      some "sk-key999" :=
  ⟨by decide,
   ((c4_failed_attempt "" true initState).1 (by decide)).1,
   by decide,
   (((c4_failed_attempt "sk-key999" false initState).2 (by decide)) rfl).2.2.1⟩

/-- C5: the dispatcher recognizes exactly the extensions of
`formatos_suportados`, matched case-insensitively on the suffix; an
entry with any other extension is ignored silently (removing it changes
nothing in the dispatch result); and a recognized file whose extraction
succeeds with at least one document contributes a document carrying its
file name and its extension without the dot as file-type metadata. -/
theorem c5_dispatcher_recognition :
    (∀ name : String, recognized name = true ↔
      fileExt name ∈ formatos_suportados) ∧
    (∀ (pre post : List FileEntry) (f : FileEntry), recognized f.name = false →
      processar_documentos (pre ++ f :: post) =
        processar_documentos (pre ++ post)) ∧
    (∀ (entries : List FileEntry) (f : FileEntry), f ∈ entries →
      extractionOk f →
      ∃ d ∈ (processar_documentos entries).docs,
        d.metadata.file_name = f.name ∧
        d.metadata.file_type = sliceFrom1 (fileExt f.name)) := by
  refine ⟨?_, ?_, ?_⟩
  · intro name
    unfold recognized
    exact List.elem_iff
  · intro pre post f h
    have hfil : (pre ++ f :: post).filter (fun g => recognized g.name) =
        (pre ++ post).filter (fun g => recognized g.name) := by
      simp [List.filter_append, List.filter_cons, h]
    unfold processar_documentos
    rw [hfil]
  · intro entries f hf hok
    have hmem : fileExt f.name ∈ formatos_suportados := by
      rcases hok with ⟨hext, _⟩ | ⟨hext, _⟩
      · rw [hext]; decide
      · simp only [List.mem_cons, List.not_mem_nil, or_false] at hext
        rcases hext with h | h | h | h <;> rw [h] <;> decide
    have hrec : recognized f.name = true := List.elem_iff.mpr hmem
    have hffil : f ∈ entries.filter fun g => recognized g.name :=
      List.mem_filter.mpr ⟨hf, hrec⟩
    have hdocs : (processar_documentos entries).docs =
        (dispatchLoop (entries.filter fun g => recognized g.name)).1 := by
      rw [processar_documentos_eq_of_mem hffil]
    rcases hok with ⟨hext, prs, hprs⟩ | ⟨hext, ds, hds, hne⟩
    · refine ⟨(processar_pptx f.name prs).1, ?_, rfl, ?_⟩
      · rw [hdocs]
        apply mem_dispatchLoop_docs hffil
        simp [processFile, hext, hprs]
      · rw [hext]
        rfl
    · have hnp : fileExt f.name ≠ ".pptx" := by
        simp only [List.mem_cons, List.not_mem_nil, or_false] at hext
        rcases hext with h | h | h | h <;> rw [h] <;> decide
      obtain ⟨d0, hd0⟩ := List.exists_mem_of_ne_nil ds hne
      refine ⟨updateMeta f.name (fileExt f.name) d0, ?_, rfl, rfl⟩
      rw [hdocs]
      apply mem_dispatchLoop_docs hffil
      simp only [processFile, if_neg hnp, if_pos hext, hds]
      exact List.mem_map_of_mem _ hd0

/-- C5, witness: the concrete text file is recognized and yields a
document tagged with its name and the file type `txt`. -/
theorem c5_dispatcher_recognition_witness :
    goodTxt ∈ [goodTxt] ∧ extractionOk goodTxt ∧
    ∃ d ∈ (processar_documentos [goodTxt]).docs,
      d.metadata.file_name = goodTxt.name ∧
      d.metadata.file_type = sliceFrom1 (fileExt goodTxt.name) :=
  ⟨by decide, Or.inr ⟨by decide, [loadedDoc], rfl, by decide⟩,
   c5_dispatcher_recognition.2.2 [goodTxt] goodTxt (by decide)
     (Or.inr ⟨by decide, [loadedDoc], rfl, by decide⟩)⟩

/-- C6: a directory whose immediate entries contain no file with a
recognized extension makes the dispatcher return the empty collection
with an attempted count of zero, and the upload step leaves the whole
session state — in particular the processed flag — unchanged. -/
theorem c6_no_recognized (entries : List FileEntry) (indexOk : Bool)
    (s : AppState) (h : ∀ f ∈ entries, recognized f.name = false) :
    processar_documentos entries = ⟨[], 0, []⟩ ∧
    uploadStep entries indexOk s = s ∧
    (s.documentos_processados = false →
      (uploadStep entries indexOk s).documentos_processados = false) := by
  have hfil : entries.filter (fun f => recognized f.name) = [] := by
    rw [List.filter_eq_nil_iff]
    intro a ha
    simp [h a ha]
  have hp : processar_documentos entries = ⟨[], 0, []⟩ := by
    unfold processar_documentos
    rw [hfil]
    rfl
  have hu : uploadStep entries indexOk s = s := by
    unfold uploadStep
    rw [hp]
    rfl
  exact ⟨hp, hu, fun hfalse => by rw [hu]; exact hfalse⟩

/-- C6, witness: a directory holding only a csv file is dispatched to
the empty result and the session state survives the upload step. -/
theorem c6_no_recognized_witness :
    (∀ f ∈ [strayCsv], recognized f.name = false) ∧
    processar_documentos [strayCsv] = ⟨[], 0, []⟩ ∧
    uploadStep [strayCsv] true initState = initState :=
  ⟨by decide,
   (c6_no_recognized [strayCsv] true initState (by decide)).1,
   (c6_no_recognized [strayCsv] true initState (by decide)).2.1⟩

/-- C7, counterexample: the failing presentation file is skipped,
counted and reported, but its report is an error message, not a warning
(`st.error` inside `processar_pptx`, while the dispatcher emits
`st.warning` only for the generic formats), refuting the claim that
every per-file failure is reported as a warning. -/
theorem c7_counterexample :
    (processar_documentos [badPptx]).reports = [⟨false, "bad.pptx"⟩] ∧
    (∀ r ∈ (processar_documentos [badPptx]).reports, r.isWarning = false) ∧
    (processar_documentos [badPptx]).numArquivos = 1 ∧
    (processar_documentos [badPptx]).docs = [] := by decide

/-- C7, amended: when extraction of a recognized file X raises, the
failure is caught and reported non-fatally — as a dispatcher warning for
the generic formats, as an error message from inside the presentation
extractor for pptx — X is skipped, every other recognized file's
documents still appear exactly as they would without X, X's content is
excluded, and X still counts in the attempted-file count. -/
theorem c7_per_file_failure (pre post : List FileEntry) (x : FileEntry)
    (hx : extractionFails x) :
    (processar_documentos (pre ++ x :: post)).docs =
      (dispatchLoop ((pre ++ post).filter fun f => recognized f.name)).1 ∧
    (∃ r ∈ (processar_documentos (pre ++ x :: post)).reports,
      r.fileName = x.name ∧ (r.isWarning = true ↔ fileExt x.name ≠ ".pptx")) ∧
    (processar_documentos (pre ++ x :: post)).numArquivos =
      ((pre ++ post).filter fun f => recognized f.name).length + 1 := by
  have hrec : recognized x.name = true := by
    apply List.elem_iff.mpr
    rcases hx with ⟨hext, _⟩ | ⟨hext, _⟩
    · rw [hext]; decide
    · simp only [List.mem_cons, List.not_mem_nil, or_false] at hext
      rcases hext with h | h | h | h <;> rw [h] <;> decide
  obtain ⟨w, hpf1, hpf2, hw⟩ :
      ∃ w : Bool, (processFile x).1 = [] ∧
        (processFile x).2 = [⟨w, x.name⟩] ∧
        (w = true ↔ fileExt x.name ≠ ".pptx") := by
    rcases hx with ⟨hext, e, he⟩ | ⟨hext, e, he⟩
    · refine ⟨false, ?_, ?_, ?_⟩ <;> simp [processFile, hext, he]
    · have hnp : fileExt x.name ≠ ".pptx" := by
        have hext2 := hext
        simp only [List.mem_cons, List.not_mem_nil, or_false] at hext2
        rcases hext2 with h | h | h | h <;> rw [h] <;> decide
      refine ⟨true, ?_, ?_, ?_⟩ <;> simp [processFile, hnp, hext, he]
  have hfil : (pre ++ x :: post).filter (fun f => recognized f.name) =
      pre.filter (fun f => recognized f.name) ++
        x :: post.filter (fun f => recognized f.name) := by
    simp [List.filter_append, List.filter_cons, hrec]
  have hmem_fil : x ∈ (pre ++ x :: post).filter fun f => recognized f.name :=
    List.mem_filter.mpr ⟨by simp, hrec⟩
  have hdocs : (dispatchLoop
      ((pre ++ x :: post).filter fun f => recognized f.name)).1 =
      (dispatchLoop ((pre ++ post).filter fun f => recognized f.name)).1 := by
    rw [hfil, List.filter_append, dispatchLoop_append, dispatchLoop_append]
    simp [dispatchLoop, hpf1]
  have hreps : (dispatchLoop
      ((pre ++ x :: post).filter fun f => recognized f.name)).2 =
      (dispatchLoop (pre.filter fun f => recognized f.name)).2 ++
        (⟨w, x.name⟩ ::
          (dispatchLoop (post.filter fun f => recognized f.name)).2) := by
    rw [hfil, dispatchLoop_append]
    simp [dispatchLoop, hpf2]
  have hcount : ((pre ++ x :: post).filter fun f => recognized f.name).length =
      ((pre ++ post).filter fun f => recognized f.name).length + 1 := by
    rw [hfil, List.filter_append]
    simp [List.length_append]
    omega
  refine ⟨?_, ?_, ?_⟩
  · rw [processar_documentos_eq_of_mem hmem_fil]
    exact hdocs
  · refine ⟨⟨w, x.name⟩, ?_, rfl, hw⟩
    rw [processar_documentos_eq_of_mem hmem_fil]
    show _ ∈ (dispatchLoop ((pre ++ x :: post).filter fun f => recognized f.name)).2
    rw [hreps]
    exact List.mem_append.mpr (Or.inr (List.mem_cons_self _ _))
  · rw [processar_documentos_eq_of_mem hmem_fil]
    exact hcount

/-- C7, witness of the amended theorem: the failing markdown file leaves
the two good files' documents intact and is still counted. -/
theorem c7_per_file_failure_witness :
    extractionFails badMd ∧
    (processar_documentos [goodTxt, badMd, goodPptx]).docs =
      (dispatchLoop ([goodTxt, goodPptx].filter fun f => recognized f.name)).1 ∧
    (processar_documentos [goodTxt, badMd, goodPptx]).numArquivos =
      ([goodTxt, goodPptx].filter fun f => recognized f.name).length + 1 :=
  ⟨Or.inr ⟨by decide, "read failure", rfl⟩,
   (c7_per_file_failure [goodTxt] [goodPptx] badMd
     (Or.inr ⟨by decide, "read failure", rfl⟩)).1,
   (c7_per_file_failure [goodTxt] [goodPptx] badMd
     (Or.inr ⟨by decide, "read failure", rfl⟩)).2.2⟩

/-- C8: a submitted question that is empty or whitespace after trimming
leaves the transcript unchanged and reports nothing; a failing query
reports the error and adds no transcript entry; a successful query
appends exactly the one (question, answer) pair at the end of the
transcript. -/
theorem c8_question_handling (enviar : Bool) (pergunta : String)
    (query : String → Except String String)
    (history : List (String × String)) :
    (pyStrip pergunta = "" →
      processarPergunta enviar pergunta query history = (history, none)) ∧
    (∀ e, enviar = true → pyStrip pergunta ≠ "" →
      query pergunta = Except.error e →
      processarPergunta enviar pergunta query history = (history, some e)) ∧
    (∀ a, enviar = true → pyStrip pergunta ≠ "" →
      query pergunta = Except.ok a →
      processarPergunta enviar pergunta query history =
        (history ++ [(pergunta, a)], none)) := by
  refine ⟨?_, ?_, ?_⟩
  · intro h
    unfold processarPergunta
    rw [if_neg]
    simp [h]
  · intro e he hne hq
    unfold processarPergunta
    rw [if_pos ⟨he, hne⟩, hq]
  · intro a he hne hq
    unfold processarPergunta
    rw [if_pos ⟨he, hne⟩, hq]

/-- C8, witness: a concrete non-blank question answered successfully
appends one pair to the empty transcript. -/
theorem c8_question_handling_witness :
    pyStrip "Faca um resumo" ≠ "" ∧
    demoQuery "Faca um resumo" = Except.ok "resposta" ∧
    processarPergunta true "Faca um resumo" demoQuery [] =
      ([("Faca um resumo", "resposta")], none) :=
  ⟨by decide, rfl,
   (c8_question_handling true "Faca um resumo" demoQuery []).2.2 "resposta"
     rfl (by decide) rfl⟩

/-- C9: the index builder always uses the fixed splitter parameters
(chunk length 3000, overlap 600, paragraph separator) and builds the
query engine with retrieval breadth 40, response mode tree_summarize,
output ceiling 12000 tokens and temperature one half. -/
theorem c9_index_parameters (documentos : List Document) :
    ∃ qe, criar_indice documentos true = some qe ∧
      qe.splitter = ⟨3000, 600, "\n\n"⟩ ∧
      qe.documentos = documentos ∧
      qe.similarity_top_k = 40 ∧
      qe.response_mode = "tree_summarize" ∧
      qe.max_tokens = 12000 ∧
      qe.temperature = 1 / 2 :=
  ⟨_, rfl, rfl, rfl, rfl, rfl, rfl, rfl⟩

/-- C10: the reload action resets exactly the processing flag, the
query-engine reference and the document count, leaving the transcript
(and the credential state) in place; after a subsequent upload the old
transcript is still there, a new successful answer is appended after it,
and every old pair still occurs in the rendered (most-recent-first)
transcript. -/
theorem c10_reload_preserves_chat (s : AppState) (entries : List FileEntry)
    (indexOk : Bool) (q a : String) (query : String → Except String String)
    (hq : query q = Except.ok a) (hne : pyStrip q ≠ "") :
    (reloadClick s).documentos_processados = false ∧
    (reloadClick s).query_engine = none ∧
    (reloadClick s).num_documentos = 0 ∧
    (reloadClick s).api_key_configured = s.api_key_configured ∧
    (reloadClick s).env_openai_key = s.env_openai_key ∧
    (reloadClick s).chat_history = s.chat_history ∧
    (uploadStep entries indexOk (reloadClick s)).chat_history =
      s.chat_history ∧
    (processarPergunta true q query
        (uploadStep entries indexOk (reloadClick s)).chat_history).1 =
      s.chat_history ++ [(q, a)] ∧
    (∀ p ∈ s.chat_history, p ∈ renderedChats (s.chat_history ++ [(q, a)])) := by
  have hchat : (uploadStep entries indexOk (reloadClick s)).chat_history =
      s.chat_history := by
    rw [uploadStep_chat]
    rfl
  refine ⟨rfl, rfl, rfl, rfl, rfl, rfl, hchat, ?_, ?_⟩
  · rw [hchat]
    unfold processarPergunta
    rw [if_pos ⟨rfl, hne⟩, hq]
  · intro p hp
    unfold renderedChats
    rw [List.mem_reverse]
    exact List.mem_append.mpr (Or.inl hp)

/-- C10, witness: from a concrete mid-session state, reloading and
uploading a new archive keeps the old transcript, and a new answer lands
after it. -/
theorem c10_reload_preserves_chat_witness :
    demoQuery "Nova pergunta" = Except.ok "resposta" ∧
    pyStrip "Nova pergunta" ≠ "" ∧
    (reloadClick chatState).chat_history = chatState.chat_history ∧
    (uploadStep [goodTxt] true (reloadClick chatState)).chat_history =
      chatState.chat_history ∧
    (processarPergunta true "Nova pergunta" demoQuery
        (uploadStep [goodTxt] true (reloadClick chatState)).chat_history).1 =
      chatState.chat_history ++ [("Nova pergunta", "resposta")] :=
  ⟨rfl, by decide,
   (c10_reload_preserves_chat chatState [goodTxt] true "Nova pergunta"
      "resposta" demoQuery rfl (by decide)).2.2.2.2.2.1,
   (c10_reload_preserves_chat chatState [goodTxt] true "Nova pergunta"
      "resposta" demoQuery rfl (by decide)).2.2.2.2.2.2.1,
   (c10_reload_preserves_chat chatState [goodTxt] true "Nova pergunta"
      "resposta" demoQuery rfl (by decide)).2.2.2.2.2.2.2.1⟩

end PGTO
